import Mathlib

/-!
Verification of the training driver
`research/Matroyshka_reranker/finetune/self_distillation/run.py`.

The driver is straight-line orchestration code.  We embed it shallowly:
the values it computes (python truthiness used for name resolution,
the pad-token fixup on the tokenizer, `list(range(...))` for the cutoff
layers, `os.path.join` for the final-checkpoint directory) are translated
as Lean functions, and its observable effects (external library calls,
filesystem writes, the self-raised `ValueError`) are recorded as an event
trace.  External calls may raise; an oracle in the environment says which
of them do, and execution stops at the first raising call, exactly as
uncaught exceptions propagate in the script.
-/

namespace SelfDistillRun

/-- Python truthiness of an optional string (`None` and `""` are falsy). -/
def pyTruthyStr : Option String → Bool
  | none => false
  | some s => !s.isEmpty

/-- Python `a if a else b` for an optional string `a`. -/
def pyStrOrElse (a : Option String) (b : String) : String :=
  if pyTruthyStr a then a.getD "" else b

/-- Python `list(range(a, b))` as a list of integers. -/
def pyRange (a b : Int) : List Int :=
  (List.range (b - a).toNat).map (fun (i : Nat) => a + (i : Int))

/-- Posix `os.path.join a b` for the cases the driver exercises:
a second absolute component wins; a single separator is inserted unless
`a` is empty or already ends in one. -/
def osPathJoin (a b : String) : String :=
  if b.startsWith "/" then b
  else if a = "" then b
  else if a.endsWith "/" then a ++ b
  else a ++ "/" ++ b

/-- The `ModelArguments` fields `run.py` reads (declared in the imported
`arguments` module; optional strings model `Optional[str] = None`). -/
structure ModelArguments where
  model_name_or_path : String
  tokenizer_name : Option String
  config_name : Option String
  cache_dir : Option String
  token : Option String
  padding_side : String
  start_layer : Int
  compress_method : String
  compress_layers : List Nat
  compress_ratios : List Nat
  train_method : String
  use_lora : Bool
  deriving Repr, DecidableEq

/-- The `TrainingArguments` fields `run.py` reads. -/
structure TrainingArguments where
  output_dir : String
  do_train : Bool
  overwrite_output_dir : Bool
  seed : Nat
  local_rank : Int
  fp16 : Bool
  per_device_train_batch_size : Nat
  gradient_checkpointing : Bool
  resume_from_checkpoint : Option String
  deriving Repr, DecidableEq

/-- The mutable tokenizer attributes `run.py` reads and writes
(lines 68-75): special-token ids are `None`-able integers. -/
structure Tokenizer where
  pad_token_id : Option Int
  unk_token_id : Option Int
  eod_id : Option Int
  bos_token_id : Option Int
  eos_token_id : Option Int
  im_start_id : Option Int
  im_end_id : Option Int
  padding_side : String
  deriving Repr, DecidableEq

/-- Filesystem facts about `training_args.output_dir` at entry
(`os.path.exists`, truthiness of `os.listdir`). -/
structure FS where
  output_dir_exists : Bool
  output_dir_nonempty : Bool
  deriving Repr, DecidableEq

/-- The external library calls of the driver that can raise.  Python
propagates an exception from any of them out of `main`. -/
inductive Stage where
  | loadTokenizer
  | getModel
  | loadConfig
  | buildBiEncoder
  | buildDataset
  | buildTrainer
  | mkdirOutputDir
  | train
  | saveModel
  | saveCheckpoint
  | saveTokenizer
  deriving Repr, DecidableEq

/-- Observable steps of a run of `main`, in source order; payloads record
the data the driver passes to the call. -/
inductive Event where
  | parseArgs
  | setupLogging
  | setSeed (seed : Nat)
  | loadTokenizer (name : String)
  | padTokenFixup
  | getModel
  | loadConfig (name : String)
  | buildBiEncoder (cutoff_layers : List Int)
  | enableInputRequireGrads
  | buildDataset
  | buildCollator
  | buildTrainer
  | mkdirOutputDir (dir : String)
  | train
  | saveModel
  | saveCheckpoint (dir : String)
  | saveTokenizer (dir : String)
  deriving Repr, DecidableEq

/-- How a run of `main` can fail: the one `ValueError` the driver raises
itself (lines 27-35), or an exception propagated from an external call. -/
inductive Err where
  | valueError
  | external (s : Stage)
  deriving Repr, DecidableEq

/-- Everything outside the driver's control: the parsed argument
dataclasses, the state of the filesystem, the tokenizer the library
returns, the loaded base model's `config.num_hidden_layers`, the
trainer's process-rank predicate, and which external calls raise. -/
structure Env where
  model_args : ModelArguments
  training_args : TrainingArguments
  fs : FS
  loaded_tokenizer : Tokenizer
  num_hidden_layers : Nat
  is_world_process_zero : Bool
  fails : Stage → Bool

/-- Lines 27-32: the guard of the only `raise` in the file. -/
def valueErrorCond (env : Env) : Bool :=
  env.fs.output_dir_exists && env.fs.output_dir_nonempty
    && env.training_args.do_train && !env.training_args.overwrite_output_dir

/-- Lines 68-74: give a tokenizer without a pad token one, preferring
`unk_token_id`, falling back to `eod_id` (which also rewrites the
bos/eos ids to the im_start/im_end ids). -/
def padTokenFixup (t : Tokenizer) : Tokenizer :=
  if t.pad_token_id.isNone then
    if t.unk_token_id.isSome then
      { t with pad_token_id := t.unk_token_id }
    else if t.eod_id.isSome then
      { t with pad_token_id := t.eod_id,
               bos_token_id := t.im_start_id,
               eos_token_id := t.im_end_id }
    else t
  else t

/-- Line 60: the name the tokenizer is loaded from. -/
def tokenizerSource (ma : ModelArguments) : String :=
  pyStrOrElse ma.tokenizer_name ma.model_name_or_path

/-- Line 81: the name the model config is loaded from. -/
def configSource (ma : ModelArguments) : String :=
  pyStrOrElse ma.config_name ma.model_name_or_path

/-- Line 92: `list(range(model_args.start_layer, num_hidden_layers + 1))`. -/
def cutoffLayers (start_layer : Int) (num_hidden_layers : Nat) : List Int :=
  pyRange start_layer ((num_hidden_layers : Int) + 1)

/-- Line 127: `os.path.join(training_args.output_dir, "checkpoint-final")`. -/
def finalCheckpointDir (ta : TrainingArguments) : String :=
  osPathJoin ta.output_dir "checkpoint-final"

/-- The fallible tail of `main` (lines 59-132) as a script: each entry is
an external call together with the events its success makes observable
(the call itself followed by any infallible statements up to the next
call). -/
def script (env : Env) : List (Stage × List Event) :=
  [ (Stage.loadTokenizer,
      [Event.loadTokenizer (tokenizerSource env.model_args), Event.padTokenFixup]),
    (Stage.getModel, [Event.getModel]),
    (Stage.loadConfig, [Event.loadConfig (configSource env.model_args)]),
    (Stage.buildBiEncoder,
      [Event.buildBiEncoder
          (cutoffLayers env.model_args.start_layer env.num_hidden_layers)]
        ++ (if env.training_args.gradient_checkpointing then
              [Event.enableInputRequireGrads] else [])),
    (Stage.buildDataset, [Event.buildDataset]),
    (Stage.buildTrainer, [Event.buildCollator, Event.buildTrainer]),
    (Stage.mkdirOutputDir, [Event.mkdirOutputDir env.training_args.output_dir]),
    (Stage.train, [Event.train]),
    (Stage.saveModel, [Event.saveModel]) ]
  ++ (if !env.model_args.use_lora then
        [(Stage.saveCheckpoint, [Event.saveCheckpoint (finalCheckpointDir env.training_args)])]
      else [])
  ++ (if env.is_world_process_zero then
        [(Stage.saveTokenizer, [Event.saveTokenizer env.training_args.output_dir])]
      else [])

/-- Run a script: stop at the first raising call, keeping the events of
the calls already completed. -/
def execScript (env : Env) : List (Stage × List Event) → List Event × Option Err
  | [] => ([], none)
  | (s, evs) :: rest =>
    if env.fails s then ([], some (Err.external s))
    else
      let r := execScript env rest
      (evs ++ r.1, r.2)

/-- Lines 21-56: argument parsing, the output-directory guard, logging
setup and seeding, all before the first external call. -/
def prefixEvents (env : Env) : List Event :=
  [Event.parseArgs, Event.setupLogging, Event.setSeed env.training_args.seed]

/-- The driver `main` of `run.py`: the trace of observable events and how
the run ended (`none` = returned normally). -/
def main (env : Env) : List Event × Option Err :=
  if valueErrorCond env then ([Event.parseArgs], some Err.valueError)
  else (prefixEvents env ++ (execScript env (script env)).1,
        (execScript env (script env)).2)

/-- The trace of a run in which every external call succeeds. -/
def fullTrace (env : Env) : List Event :=
  prefixEvents env ++ (List.map Prod.snd (script env)).flatten

/-- Lines 68-75: the tokenizer state after the pad-token fallback and the
padding-side assignment. -/
def tokenizerAfterSetup (env : Env) : Tokenizer :=
  { padTokenFixup env.loaded_tokenizer with padding_side := env.model_args.padding_side }

/-- Source position of each event, for stating that the pipeline stages
happen in source order. -/
def rank : Event → Nat
  | .parseArgs => 0
  | .setupLogging => 1
  | .setSeed _ => 2
  | .loadTokenizer _ => 3
  | .padTokenFixup => 4
  | .getModel => 5
  | .loadConfig _ => 6
  | .buildBiEncoder _ => 7
  | .enableInputRequireGrads => 8
  | .buildDataset => 9
  | .buildCollator => 10
  | .buildTrainer => 11
  | .mkdirOutputDir _ => 12
  | .train => 13
  | .saveModel => 14
  | .saveCheckpoint _ => 15
  | .saveTokenizer _ => 16

/-- Source position of each fallible external call. -/
def stageRank : Stage → Nat
  | .loadTokenizer => 3
  | .getModel => 5
  | .loadConfig => 6
  | .buildBiEncoder => 7
  | .buildDataset => 9
  | .buildTrainer => 10
  | .mkdirOutputDir => 12
  | .train => 13
  | .saveModel => 14
  | .saveCheckpoint => 15
  | .saveTokenizer => 16

/-- One script segment precedes another in source order: every event of
the first sits strictly before the other's call site. -/
def SegBefore (p q : Stage × List Event) : Prop :=
  ∀ ev ∈ p.2, rank ev < stageRank q.1

/-- `SegBefore` strengthened with monotonicity of the call sites, which
makes it transitive. -/
def SegR (p q : Stage × List Event) : Prop :=
  SegBefore p q ∧ stageRank p.1 ≤ stageRank q.1

/-- Strict source order on events. -/
def rankLt (a b : Event) : Prop :=
  rank a < rank b

/-- A representative parsed `ModelArguments` value. -/
def defaultMA : ModelArguments :=
  { model_name_or_path := "base-model"
    tokenizer_name := none
    config_name := none
    cache_dir := none
    token := none
    padding_side := "right"
    start_layer := 2
    compress_method := "mean"
    compress_layers := [1]
    compress_ratios := [2]
    train_method := "distill"
    use_lora := false }

/-- A representative parsed `TrainingArguments` value. -/
def defaultTA : TrainingArguments :=
  { output_dir := "out"
    do_train := true
    overwrite_output_dir := true
    seed := 42
    local_rank := -1
    fp16 := false
    per_device_train_batch_size := 2
    gradient_checkpointing := false
    resume_from_checkpoint := none }

/-- A tokenizer that already has a pad token. -/
def defaultTok : Tokenizer :=
  { pad_token_id := some 0
    unk_token_id := some 1
    eod_id := none
    bos_token_id := some 2
    eos_token_id := some 3
    im_start_id := none
    im_end_id := none
    padding_side := "right" }

/-- A run on rank zero in which every external call succeeds. -/
def envAllOk : Env :=
  { model_args := defaultMA
    training_args := defaultTA
    fs := { output_dir_exists := false, output_dir_nonempty := false }
    loaded_tokenizer := defaultTok
    num_hidden_layers := 4
    is_world_process_zero := true
    fails := fun _ => false }

/-- The same run on a process whose `trainer.is_world_process_zero()` is
false. -/
def envNonZeroRank : Env :=
  { envAllOk with is_world_process_zero := false }

/-- A run against a non-empty pre-existing output directory without
`--overwrite_output_dir`. -/
def envBadDir : Env :=
  { envAllOk with
    fs := { output_dir_exists := true, output_dir_nonempty := true }
    training_args := { defaultTA with overwrite_output_dir := false } }

/-- A run in which `trainer.train` raises. -/
def envFailTrain : Env :=
  { envAllOk with fails := fun s => s == Stage.train }

/-- A run whose loaded tokenizer lacks a pad token but has an unk token. -/
def envPadFix : Env :=
  { envAllOk with loaded_tokenizer := { defaultTok with pad_token_id := none } }

/-- A run whose loaded tokenizer lacks pad and unk tokens but has the
eod/im special tokens. -/
def envPadFixEod : Env :=
  { envAllOk with
    loaded_tokenizer :=
      { defaultTok with
        pad_token_id := none
        unk_token_id := none
        eod_id := some 9
        im_start_id := some 5
        im_end_id := some 6 } }

/-- A run with explicit `--tokenizer_name` and `--config_name`. -/
def envNamed : Env :=
  { envAllOk with
    model_args := { defaultMA with
      tokenizer_name := some "tok-name"
      config_name := some "cfg-name" } }

/-! Helper lemmas. -/

theorem pyRange_mem (a b k : Int) : k ∈ pyRange a b ↔ a ≤ k ∧ k < b := by
  simp only [pyRange, List.mem_map, List.mem_range]
  constructor
  · rintro ⟨i, hi, rfl⟩
    exact ⟨by omega, by omega⟩
  · rintro ⟨h1, h2⟩
    refine ⟨(k - a).toNat, ?_, ?_⟩ <;> omega

theorem pyRange_sorted (a b : Int) : (pyRange a b).Pairwise (· < ·) := by
  refine List.Pairwise.map _ (fun i j hij => ?_) (List.pairwise_lt_range _)
  have h : i < j := hij
  omega

theorem pyRange_eq_nil_iff (a b : Int) : pyRange a b = [] ↔ b ≤ a := by
  simp only [pyRange, List.map_eq_nil_iff, List.range_eq_nil]
  omega

theorem execScript_ne_valueError (env : Env) (l : List (Stage × List Event)) :
    (execScript env l).2 ≠ some Err.valueError := by
  induction l with
  | nil => simp [execScript]
  | cons p rest ih =>
    obtain ⟨s, evs⟩ := p
    by_cases hf : env.fails s <;> simp [execScript, hf]
    exact ih

theorem execScript_trace_le_flatten (env : Env) (l : List (Stage × List Event)) :
    (execScript env l).1 <+: (l.map Prod.snd).flatten := by
  induction l with
  | nil => simp [execScript]
  | cons p rest ih =>
    obtain ⟨s, evs⟩ := p
    by_cases hf : env.fails s
    · simp [execScript, hf]
    · simp only [execScript, if_neg hf, List.map_cons, List.flatten_cons]
      obtain ⟨t, ht⟩ := ih
      exact ⟨t, by rw [List.append_assoc, ht]⟩

theorem execScript_of_ok (env : Env) (l : List (Stage × List Event))
    (h : (execScript env l).2 = none) :
    (execScript env l).1 = (l.map Prod.snd).flatten := by
  induction l with
  | nil => simp [execScript]
  | cons p rest ih =>
    obtain ⟨s, evs⟩ := p
    by_cases hf : env.fails s
    · simp [execScript, hf] at h
    · simp [execScript, hf] at h ⊢
      exact ih h

theorem execScript_error_stage_mem (env : Env) (l : List (Stage × List Event))
    (s : Stage) (h : (execScript env l).2 = some (Err.external s)) :
    s ∈ l.map Prod.fst ∧ env.fails s = true := by
  induction l with
  | nil => simp [execScript] at h
  | cons p rest ih =>
    obtain ⟨ps, evs⟩ := p
    by_cases hf : env.fails ps
    · simp [execScript, hf] at h
      subst h
      exact ⟨by simp, hf⟩
    · simp [execScript, hf] at h
      obtain ⟨h1, h2⟩ := ih h
      exact ⟨by simp [h1], h2⟩

theorem execScript_error_rank (env : Env) :
    ∀ l : List (Stage × List Event), l.Pairwise SegBefore →
      ∀ s : Stage, (execScript env l).2 = some (Err.external s) →
        ∀ ev ∈ (execScript env l).1, rank ev < stageRank s := by
  intro l
  induction l with
  | nil => intro _ s h; simp [execScript] at h
  | cons p rest ih =>
    intro hseg s h ev hev
    obtain ⟨ps, evs⟩ := p
    rw [List.pairwise_cons] at hseg
    obtain ⟨hp, hrest⟩ := hseg
    by_cases hf : env.fails ps
    · simp [execScript, hf] at hev
    · simp [execScript, hf] at h hev
      rcases hev with h1 | h2
      · obtain ⟨hmem, _⟩ := execScript_error_stage_mem env rest s h
        obtain ⟨q, hq, hqs⟩ := List.mem_map.mp hmem
        have := hp q hq ev h1
        rwa [hqs] at this
      · exact ih hrest s h ev h2

theorem stageRank_ge_three (s : Stage) : 3 ≤ stageRank s := by
  cases s <;> simp [stageRank]

theorem segR_trans : ∀ p q r, SegR p q → SegR q r → SegR p r := by
  rintro p q r ⟨h1, h2⟩ ⟨h3, h4⟩
  exact ⟨fun ev hev => lt_of_lt_of_le (h1 ev hev) h4, le_trans h2 h4⟩

theorem script_chain_seg (env : Env) : List.Chain' SegR (script env) := by
  cases hgc : env.training_args.gradient_checkpointing <;>
    cases hl : env.model_args.use_lora <;>
      cases hw : env.is_world_process_zero <;>
        simp [script, hgc, hl, hw, SegR, SegBefore, List.chain'_cons, stageRank, rank]

theorem script_pairwise_seg (env : Env) : (script env).Pairwise SegBefore := by
  have hp := (@List.chain'_iff_pairwise _ SegR ⟨segR_trans⟩ (script env)).mp
    (script_chain_seg env)
  exact hp.imp (fun h => h.1)

theorem fullTrace_chain_rank (env : Env) : List.Chain' rankLt (fullTrace env) := by
  cases hgc : env.training_args.gradient_checkpointing <;>
    cases hl : env.model_args.use_lora <;>
      cases hw : env.is_world_process_zero <;>
        simp [fullTrace, prefixEvents, script, hgc, hl, hw, List.chain'_cons, rankLt, rank]

theorem fullTrace_rank_sorted (env : Env) :
    (fullTrace env).Pairwise rankLt := by
  exact (@List.chain'_iff_pairwise _ rankLt
    ⟨fun a b c h1 h2 => Nat.lt_trans h1 h2⟩ (fullTrace env)).mp (fullTrace_chain_rank env)

theorem main_ok_trace (env : Env) (h : (main env).2 = none) :
    (main env).1 = fullTrace env := by
  by_cases hc : valueErrorCond env = true
  · simp [main, hc] at h
  · simp only [main, if_neg hc] at h ⊢
    rw [fullTrace, execScript_of_ok env _ h]

theorem main_trace_le_full (env : Env) : (main env).1 <+: fullTrace env := by
  by_cases hc : valueErrorCond env = true
  · simp only [main, if_pos hc, fullTrace, prefixEvents]
    exact ⟨Event.setupLogging :: Event.setSeed env.training_args.seed ::
      (List.map Prod.snd (script env)).flatten, rfl⟩
  · simp only [main, if_neg hc, fullTrace]
    obtain ⟨t, ht⟩ := execScript_trace_le_flatten env (script env)
    exact ⟨t, by rw [List.append_assoc, ht]⟩

theorem main_error_rank (env : Env) (s : Stage)
    (h : (main env).2 = some (Err.external s)) :
    ∀ ev ∈ (main env).1, rank ev < stageRank s := by
  by_cases hc : valueErrorCond env = true
  · simp [main, hc] at h
  · simp only [main, if_neg hc] at h ⊢
    intro ev hev
    have h3 := stageRank_ge_three s
    rcases List.mem_append.mp hev with h1 | h2
    · simp only [prefixEvents, List.mem_cons, List.mem_singleton] at h1
      rcases h1 with rfl | rfl | h1
      · simp [rank]; omega
      · simp [rank]; omega
      · simp at h1; subst h1; simp [rank]; omega
    · exact execScript_error_rank env (script env) (script_pairwise_seg env) s h ev h2

/-! Claim theorems. -/

/-- C1: `main` raises its `ValueError` exactly when the output directory
exists, is non-empty, `do_train` is set and `overwrite_output_dir` is not
set; under every other combination of those four conditions the run never
fails with the driver's own error (any failure is a propagated external
one). -/
theorem main_valueError_iff_dir_check (env : Env) :
    (main env).2 = some Err.valueError ↔
      (env.fs.output_dir_exists = true ∧ env.fs.output_dir_nonempty = true ∧
       env.training_args.do_train = true ∧
       env.training_args.overwrite_output_dir = false) := by
  by_cases hc : valueErrorCond env = true
  · have hc' := hc
    simp only [valueErrorCond, Bool.and_eq_true, Bool.not_eq_true'] at hc'
    simp only [main, if_pos hc]
    exact iff_of_true trivial ⟨hc'.1.1.1, hc'.1.1.2, hc'.1.2, hc'.2⟩
  · simp only [main, if_neg hc]
    constructor
    · intro h
      exact absurd h (execScript_ne_valueError env _)
    · rintro ⟨h1, h2, h3, h4⟩
      exact absurd (by simp [valueErrorCond, h1, h2, h3, h4]) hc

/-- C1 witness: a concrete run against a non-empty existing output
directory with `do_train` and without `overwrite_output_dir` raises. -/
theorem main_valueError_iff_dir_check_witness :
    (main envBadDir).2 = some Err.valueError :=
  (main_valueError_iff_dir_check envBadDir).mpr
    ⟨by decide, by decide, by decide, by decide⟩

/-- C2 counterexample: a run on a process that is not world-process zero
completes training without error and saves the model, yet never saves the
tokenizer — refuting "the tokenizer is saved on every such run, regardless
of process rank". -/
theorem main_tokenizer_rank_guard_cex :
    (main envNonZeroRank).2 = none ∧
    Event.saveModel ∈ (main envNonZeroRank).1 ∧
    Event.saveTokenizer "out" ∉ (main envNonZeroRank).1 := by
  decide

/-- C2 (amended): every completed run saves the model via
`trainer.save_model`; the tokenizer is saved to `output_dir` exactly when
`trainer.is_world_process_zero()` holds for the process. -/
theorem main_saves_model_and_tokenizer (env : Env) (h : (main env).2 = none) :
    Event.saveModel ∈ (main env).1 ∧
    (Event.saveTokenizer env.training_args.output_dir ∈ (main env).1 ↔
      env.is_world_process_zero = true) := by
  rw [main_ok_trace env h]
  cases hgc : env.training_args.gradient_checkpointing <;>
    cases hl : env.model_args.use_lora <;>
      cases hw : env.is_world_process_zero <;>
        simp [fullTrace, prefixEvents, script, hgc, hl, hw]

/-- C2 witness: on the rank-zero run both the model and the tokenizer are
persisted. -/
theorem main_saves_model_and_tokenizer_witness :
    Event.saveModel ∈ (main envAllOk).1 ∧
    (Event.saveTokenizer envAllOk.training_args.output_dir ∈ (main envAllOk).1 ↔
      envAllOk.is_world_process_zero = true) :=
  main_saves_model_and_tokenizer envAllOk (by decide)

/-- C3: the cutoff layers handed to `BiEncoderModel` are exhaustive and
contiguous: they are exactly the integers from `start_layer` to
`num_hidden_layers` inclusive, strictly ascending, empty precisely when
`start_layer` exceeds `num_hidden_layers`; and every completed run builds
the wrapper with that list. -/
theorem cutoffLayers_exhaustive_contiguous (s : Int) (n : Nat) :
    (∀ k : Int, k ∈ cutoffLayers s n ↔ s ≤ k ∧ k ≤ (n : Int)) ∧
    (cutoffLayers s n).Pairwise (· < ·) ∧
    (cutoffLayers s n = [] ↔ (n : Int) < s) ∧
    (∀ env : Env, (main env).2 = none →
      Event.buildBiEncoder
          (cutoffLayers env.model_args.start_layer env.num_hidden_layers) ∈
        (main env).1) := by
  refine ⟨fun k => ?_, pyRange_sorted _ _, ?_, fun env h => ?_⟩
  · rw [cutoffLayers, pyRange_mem]
    omega
  · rw [cutoffLayers, pyRange_eq_nil_iff]
    omega
  · rw [main_ok_trace env h]
    cases hgc : env.training_args.gradient_checkpointing <;>
      cases hl : env.model_args.use_lora <;>
        cases hw : env.is_world_process_zero <;>
          simp [fullTrace, prefixEvents, script, hgc, hl, hw]

/-- C3 witness: concrete instance with `start_layer = 2` over a model with
4 hidden layers, and the wrapper construction event of a concrete run. -/
theorem cutoffLayers_exhaustive_contiguous_witness :
    ((3 : Int) ∈ cutoffLayers 2 4 ↔ (2 : Int) ≤ 3 ∧ (3 : Int) ≤ (4 : Nat)) ∧
    Event.buildBiEncoder
        (cutoffLayers envAllOk.model_args.start_layer envAllOk.num_hidden_layers) ∈
      (main envAllOk).1 :=
  ⟨(cutoffLayers_exhaustive_contiguous 2 4).1 3,
   (cutoffLayers_exhaustive_contiguous envAllOk.model_args.start_layer
      envAllOk.num_hidden_layers).2.2.2 envAllOk (by decide)⟩

/-- C4: the pipeline stages happen in source order: the all-success trace
is strictly sorted by source position, every actual trace is a prefix of
it, an error-free run produces the whole of it, and when an external call
raises, every event of the trace lies strictly before that call's source
position — no later stage is reached. -/
theorem main_stage_order (env : Env) :
    (fullTrace env).Pairwise rankLt ∧
    (main env).1 <+: fullTrace env ∧
    ((main env).2 = none → (main env).1 = fullTrace env) ∧
    (∀ s : Stage, (main env).2 = some (Err.external s) →
      ∀ ev ∈ (main env).1, rank ev < stageRank s) :=
  ⟨fullTrace_rank_sorted env, main_trace_le_full env,
   main_ok_trace env, main_error_rank env⟩

/-- C4 witness: the all-success run realises the full ordered trace, and
in a run whose `trainer.train` raises, argument parsing (which did happen)
sits strictly before the training stage. -/
theorem main_stage_order_witness :
    (main envAllOk).1 = fullTrace envAllOk ∧
    rank Event.parseArgs < stageRank Stage.train :=
  ⟨(main_stage_order envAllOk).2.2.1 (by decide),
   (main_stage_order envFailTrain).2.2.2 Stage.train (by decide)
     Event.parseArgs (by decide)⟩

/-- C5: after a completed run, the extra deepspeed checkpoint in
`os.path.join(output_dir, "checkpoint-final")` is written exactly when
`use_lora` is false; with `use_lora` no checkpoint directory is written at
all. -/
theorem main_final_checkpoint_iff_not_lora (env : Env)
    (h : (main env).2 = none) :
    (env.model_args.use_lora = false →
      Event.saveCheckpoint (finalCheckpointDir env.training_args) ∈ (main env).1) ∧
    (env.model_args.use_lora = true →
      ∀ d, Event.saveCheckpoint d ∉ (main env).1) := by
  rw [main_ok_trace env h]
  cases hgc : env.training_args.gradient_checkpointing <;>
    cases hl : env.model_args.use_lora <;>
      cases hw : env.is_world_process_zero <;>
        simp [fullTrace, prefixEvents, script, hgc, hl, hw]

/-- C5 witness: the concrete non-lora run writes the final checkpoint. -/
theorem main_final_checkpoint_iff_not_lora_witness :
    Event.saveCheckpoint (finalCheckpointDir envAllOk.training_args) ∈
      (main envAllOk).1 :=
  (main_final_checkpoint_iff_not_lora envAllOk (by decide)).1 (by decide)

/-- C6: the output-directory `ValueError` is atomic: when it fires the
trace is argument parsing alone — the output directory was not created,
the seed was not set, and no tokenizer or model loading began. -/
theorem main_valueError_atomic (env : Env)
    (h : (main env).2 = some Err.valueError) :
    (main env).1 = [Event.parseArgs] ∧
    (∀ d, Event.mkdirOutputDir d ∉ (main env).1) ∧
    (∀ n, Event.setSeed n ∉ (main env).1) ∧
    (∀ nm, Event.loadTokenizer nm ∉ (main env).1) ∧
    Event.getModel ∉ (main env).1 := by
  by_cases hc : valueErrorCond env = true
  · simp [main, hc]
  · simp only [main, if_neg hc] at h
    exact absurd h (execScript_ne_valueError env _)

/-- C6 witness: the concrete raising run performed nothing beyond
argument parsing. -/
theorem main_valueError_atomic_witness :
    (main envBadDir).1 = [Event.parseArgs] ∧
    Event.getModel ∉ (main envBadDir).1 :=
  ⟨(main_valueError_atomic envBadDir (by decide)).1,
   (main_valueError_atomic envBadDir (by decide)).2.2.2.2⟩

/-- C7: pad-token fallback invariant after tokenizer setup: an existing
pad id is kept (only `padding_side` is assigned); otherwise `unk_token_id`
is used when present, leaving bos/eos alone; otherwise, when `eod_id` is
present, it becomes the pad id and bos/eos are rewritten to the
im_start/im_end ids; with none of them the token ids are untouched. -/
theorem tokenizer_pad_fallback (env : Env) :
    (env.loaded_tokenizer.pad_token_id ≠ none →
      tokenizerAfterSetup env =
        { env.loaded_tokenizer with padding_side := env.model_args.padding_side }) ∧
    (env.loaded_tokenizer.pad_token_id = none →
      env.loaded_tokenizer.unk_token_id ≠ none →
      (tokenizerAfterSetup env).pad_token_id = env.loaded_tokenizer.unk_token_id ∧
      (tokenizerAfterSetup env).bos_token_id = env.loaded_tokenizer.bos_token_id ∧
      (tokenizerAfterSetup env).eos_token_id = env.loaded_tokenizer.eos_token_id) ∧
    (env.loaded_tokenizer.pad_token_id = none →
      env.loaded_tokenizer.unk_token_id = none →
      env.loaded_tokenizer.eod_id ≠ none →
      (tokenizerAfterSetup env).pad_token_id = env.loaded_tokenizer.eod_id ∧
      (tokenizerAfterSetup env).bos_token_id = env.loaded_tokenizer.im_start_id ∧
      (tokenizerAfterSetup env).eos_token_id = env.loaded_tokenizer.im_end_id) ∧
    (env.loaded_tokenizer.pad_token_id = none →
      env.loaded_tokenizer.unk_token_id = none →
      env.loaded_tokenizer.eod_id = none →
      tokenizerAfterSetup env =
        { env.loaded_tokenizer with padding_side := env.model_args.padding_side }) := by
  cases hp : env.loaded_tokenizer.pad_token_id <;>
    cases hu : env.loaded_tokenizer.unk_token_id <;>
      cases he : env.loaded_tokenizer.eod_id <;>
        simp [tokenizerAfterSetup, padTokenFixup, hp, hu, he]

/-- C7 witness: a loaded tokenizer with no pad id and an unk id gets the
unk id as pad id with bos/eos untouched, and one with only the eod id
gets the eod id and the im bos/eos rewrite. -/
theorem tokenizer_pad_fallback_witness :
    ((tokenizerAfterSetup envPadFix).pad_token_id =
        envPadFix.loaded_tokenizer.unk_token_id ∧
      (tokenizerAfterSetup envPadFix).bos_token_id =
        envPadFix.loaded_tokenizer.bos_token_id ∧
      (tokenizerAfterSetup envPadFix).eos_token_id =
        envPadFix.loaded_tokenizer.eos_token_id) ∧
    ((tokenizerAfterSetup envPadFixEod).pad_token_id =
        envPadFixEod.loaded_tokenizer.eod_id ∧
      (tokenizerAfterSetup envPadFixEod).bos_token_id =
        envPadFixEod.loaded_tokenizer.im_start_id ∧
      (tokenizerAfterSetup envPadFixEod).eos_token_id =
        envPadFixEod.loaded_tokenizer.im_end_id) :=
  ⟨(tokenizer_pad_fallback envPadFix).2.1 (by decide) (by decide),
   (tokenizer_pad_fallback envPadFixEod).2.2.1 (by decide) (by decide) (by decide)⟩

/-- C8: name-resolution precedence: the tokenizer is loaded from
`tokenizer_name` when that is set and non-empty, else from
`model_name_or_path`; likewise the config from `config_name`; and every
completed run records both loads under exactly those names. -/
theorem name_resolution_precedence (env : Env) :
    (∀ s, env.model_args.tokenizer_name = some s → s ≠ "" →
      tokenizerSource env.model_args = s) ∧
    ((env.model_args.tokenizer_name = none ∨
        env.model_args.tokenizer_name = some "") →
      tokenizerSource env.model_args = env.model_args.model_name_or_path) ∧
    (∀ s, env.model_args.config_name = some s → s ≠ "" →
      configSource env.model_args = s) ∧
    ((env.model_args.config_name = none ∨
        env.model_args.config_name = some "") →
      configSource env.model_args = env.model_args.model_name_or_path) ∧
    ((main env).2 = none →
      Event.loadTokenizer (tokenizerSource env.model_args) ∈ (main env).1 ∧
      Event.loadConfig (configSource env.model_args) ∈ (main env).1) := by
  have hempty : pyTruthyStr (some "") = false := rfl
  have hnone : pyTruthyStr none = false := rfl
  refine ⟨?_, ?_, ?_, ?_, fun h => ?_⟩
  · intro s hs hne
    have hse : s.isEmpty = false := by
      cases hse : s.isEmpty
      · rfl
      · exact absurd ((String.isEmpty_iff s).mp hse) hne
    simp [tokenizerSource, pyStrOrElse, pyTruthyStr, hs, hse]
  · rintro (hs | hs) <;> simp [tokenizerSource, pyStrOrElse, hs, hempty, hnone]
  · intro s hs hne
    have hse : s.isEmpty = false := by
      cases hse : s.isEmpty
      · rfl
      · exact absurd ((String.isEmpty_iff s).mp hse) hne
    simp [configSource, pyStrOrElse, pyTruthyStr, hs, hse]
  · rintro (hs | hs) <;> simp [configSource, pyStrOrElse, hs, hempty, hnone]
  · rw [main_ok_trace env h]
    cases hgc : env.training_args.gradient_checkpointing <;>
      cases hl : env.model_args.use_lora <;>
        cases hw : env.is_world_process_zero <;>
          simp [fullTrace, prefixEvents, script, hgc, hl, hw]

/-- C8 witness: explicit names win; an unset `tokenizer_name` falls back
to `model_name_or_path`. -/
theorem name_resolution_precedence_witness :
    tokenizerSource envNamed.model_args = "tok-name" ∧
    configSource envNamed.model_args = "cfg-name" ∧
    tokenizerSource envAllOk.model_args = envAllOk.model_args.model_name_or_path :=
  ⟨(name_resolution_precedence envNamed).1 "tok-name" (by decide) (by decide),
   (name_resolution_precedence envNamed).2.2.1 "cfg-name" (by decide) (by decide),
   (name_resolution_precedence envAllOk).2.1 (Or.inl (by decide))⟩

end SelfDistillRun
